import Mathlib

/-!
Shallow embedding of the `aihelper` repository: the streaming relay
(`src/app/api/analyze/route.ts`, handler `POST`) and the capture-and-submit
client (`src/app/page.tsx`, operations `startCamera`, `stopCamera`,
`takePhoto`).  Definitions are translated from the source; theorems settle
the spec claims.
-/

/-- Concatenation of a chunk sequence, in order. -/
def strConcat : List String → String
  | [] => ""
  | c :: cs => c ++ strConcat cs

namespace Relay

/-- Models `chunk.choices[0]?.delta?.content || ''` (route.ts line 56):
a delta whose content is absent (or empty) is coerced to the empty string. -/
def contentOf (d : Option String) : String := d.getD ""

/-- How the upstream async iterator terminates after yielding its deltas:
either a clean end-of-stream or a raised provider error. -/
inductive UpEnd where
  | eos : UpEnd
  | err : UpEnd
deriving DecidableEq, Repr

/-- Terminal state of the relay's outbound `ReadableStream`: a clean
`controller.close()` or `controller.error(e)`.  (After `controller.error`,
the `finally` block's `controller.close()` throws a `TypeError` inside the
rejected `start` promise, which leaves the already-errored stream errored,
so the outbound terminal really is `errored`.) -/
inductive Terminal where
  | completed : Terminal
  | errored : Terminal
deriving DecidableEq, Repr

/-- The chunks the relay enqueues: the `for await` loop (route.ts lines
55-58) enqueues exactly one encoded text chunk per upstream delta, with no
accumulation across iterations. -/
def relayChunks : List (Option String) → List String
  | [] => []
  | d :: ds => contentOf d :: relayChunks ds

/-- Terminal state of the outbound stream as a function of how upstream
ended (route.ts lines 54-63: clean loop end hits `finally close`, a raised
error hits `catch controller.error`). -/
def terminalOf : UpEnd → Terminal
  | UpEnd.eos => Terminal.completed
  | UpEnd.err => Terminal.errored

/-- The relay's outbound stream for a run in which upstream yields `deltas`
and then terminates with `e`: the ordered chunk trace and the terminal
state. -/
def relayOut (deltas : List (Option String)) (e : UpEnd) :
    List String × Terminal :=
  (relayChunks deltas, terminalOf e)

/-- Behaviour of the upstream provider for one request:
`openai.chat.completions.create` either rejects outright or returns a
stream of deltas with a terminal signal. -/
inductive Upstream where
  | reject : Upstream
  | stream : List (Option String) → UpEnd → Upstream
deriving DecidableEq, Repr

/-- Outcome of the `POST` handler: a structured JSON error with a status
code, or a 200 streaming response carrying the chunk trace and terminal. -/
inductive RelayResponse where
  | jsonError : String → Nat → RelayResponse
  | streamResp : List String → Terminal → RelayResponse
deriving DecidableEq, Repr

/-- JavaScript falsiness of an optional string value: `undefined`/`null`
(modelled `none`) and the empty string are falsy. -/
def isFalsyStr : Option String → Bool
  | none => true
  | some s => s = ""

/-- The `POST` handler (route.ts lines 9-75).
`apiKey` models `process.env.OPENAI_API_KEY`; `body` models the request
body: `none` when `req.json()` throws (malformed JSON, caught by the outer
`try` giving the 500 result), `some img` when it parses with image field
`img`.  `up` is the upstream provider's behaviour.  The second component
counts upstream calls issued (`openai.chat.completions.create`). -/
def POST (apiKey : Option String) (body : Option (Option String))
    (up : Upstream) : RelayResponse × Nat :=
  if isFalsyStr apiKey then
    (RelayResponse.jsonError "OpenAI API key is not configured" 500, 0)
  else
    match body with
    | none => (RelayResponse.jsonError "Failed to analyze image" 500, 0)
    | some img =>
      if isFalsyStr img then
        (RelayResponse.jsonError "No image data provided" 400, 0)
      else
        match up with
        | Upstream.reject =>
            (RelayResponse.jsonError "Failed to analyze image" 500, 1)
        | Upstream.stream deltas e =>
            (RelayResponse.streamResp (relayChunks deltas) (terminalOf e), 1)

/-- Concatenation of all upstream delta contents, in arrival order (a delta
without content contributes nothing). -/
def upstreamConcat : List (Option String) → String
  | [] => ""
  | none :: ds => upstreamConcat ds
  | some s :: ds => s ++ upstreamConcat ds

/-- Modelled from the spec (section 6): the image payload is "an image as a
self-describing data URL".  A well-formed image field is a data URL; any
other string is malformed.  The relay source never checks this. -/
def isDataURL (s : String) : Bool := List.isPrefixOf "data:".data s.data

end Relay

namespace Client

/-- The client component state touched by `takePhoto` (page.tsx lines 8-11):
the transcript, the busy indicator and the error message. -/
structure ClientState where
  analysis : String
  isLoading : Bool
  error : String
deriving DecidableEq, Repr

/-- Outcome of the `fetch` to `/api/analyze` and of consuming its body
(page.tsx lines 126-150): the fetch itself throws; or `!response.ok` with a
parsed error body field; or an OK response with no body; or an OK response
whose reader yields `chunks` and then either finishes (`readErr = none`) or
throws an error with message `m` (`readErr = some m`). -/
inductive FetchOutcome where
  | netError : String → FetchOutcome
  | httpError : Option String → FetchOutcome
  | okNoBody : FetchOutcome
  | okStream : List String → Option String → FetchOutcome
deriving DecidableEq, Repr

/-- Environment of one `takePhoto` invocation: whether
`videoRef.current`, `canvasRef.current` and the canvas 2D context are
available, whether `video.readyState === video.HAVE_ENOUGH_DATA`, and the
fetch outcome reached if a submission is issued. -/
structure Env where
  videoPresent : Bool
  canvasPresent : Bool
  contextPresent : Bool
  ready : Bool
  fetch : FetchOutcome
deriving DecidableEq, Repr

/-- The message thrown on a non-OK response (page.tsx line 136):
`errorData.error || 'Failed to analyze image'`. -/
def httpErrMsg (errField : Option String) : String :=
  if Relay.isFalsyStr errField then "Failed to analyze image"
  else errField.getD ""

/-- The read loop (page.tsx lines 143-149): each decoded chunk is appended
to the transcript in arrival order via `setAnalysis(prev => prev + text)`. -/
def consumeChunks (a : String) : List String → String
  | [] => a
  | c :: cs => consumeChunks (a ++ c) cs

/-- The catch block (page.tsx lines 151-153): set the error message from
the thrown error, suffixed with a retry hint. -/
def catchErr (s : ClientState) (msg : String) : ClientState :=
  { s with error := msg ++ ". Please try again." }

/-- `takePhoto` (page.tsx lines 101-157) as a state transformer.  Returns
the resulting client state and the number of fetches issued.  The early
returns (missing video/canvas ref, missing 2D context) change nothing; a
not-ready feed throws 'Video stream not ready' into the catch; otherwise
the busy flag is set, transcript and error are cleared, and the fetch
outcome is consumed, with `finally` clearing the busy flag on every path. -/
def takePhoto (s : ClientState) (env : Env) : ClientState × Nat :=
  if ¬env.videoPresent ∨ ¬env.canvasPresent then (s, 0)
  else if ¬env.contextPresent then (s, 0)
  else if ¬env.ready then
    ({ catchErr s "Video stream not ready" with isLoading := false }, 0)
  else
    let s1 : ClientState := { analysis := "", isLoading := true, error := "" }
    match env.fetch with
    | FetchOutcome.netError m =>
        ({ catchErr s1 m with isLoading := false }, 1)
    | FetchOutcome.httpError errField =>
        ({ catchErr s1 (httpErrMsg errField) with isLoading := false }, 1)
    | FetchOutcome.okNoBody =>
        ({ s1 with isLoading := false }, 1)
    | FetchOutcome.okStream chunks readErr =>
        let s2 : ClientState := { s1 with analysis := consumeChunks s1.analysis chunks }
        match readErr with
        | none => ({ s2 with isLoading := false }, 1)
        | some m => ({ catchErr s2 m with isLoading := false }, 1)

end Client

namespace Camera

/-- World of allocated media streams: each allocated `MediaStream` is its
list of track-liveness flags, in allocation order.  `current` is the
component's `stream` state (an index into `streams`), `videoSrc` the video
element's `srcObject`. -/
structure CamWorld where
  streams : List (List Bool)
  current : Option Nat
  videoPresent : Bool
  videoSrc : Option Nat
  error : String
deriving DecidableEq, Repr

/-- `track.stop()` applied to every track of one stream
(page.tsx line 92: `stream.getTracks().forEach(track => track.stop())`). -/
def stopTracks (ts : List Bool) : List Bool := ts.map (fun _ => false)

/-- Stop all tracks of the stream at index `i`, leaving other streams
untouched. -/
def stopStreamAt (ss : List (List Bool)) (i : Nat) : List (List Bool) :=
  ss.mapIdx (fun j ts => if j = i then stopTracks ts else ts)

/-- `stopCamera` (page.tsx lines 90-98): if a stream is held, stop its
tracks, null the state, and detach the preview; otherwise do nothing. -/
def stopCamera (w : CamWorld) : CamWorld :=
  match w.current with
  | none => w
  | some i =>
    { w with
      streams := stopStreamAt w.streams i
      current := none
      videoSrc := if w.videoPresent then none else w.videoSrc }

/-- The success path of `startCamera` (page.tsx lines 46-67): clear the
error, allocate a fresh stream of `n` live tracks via `getUserMedia`, and
make it current.  The source never stops or touches the prior stream. -/
def startCameraSuccess (w : CamWorld) (n : Nat) : CamWorld :=
  { w with
    error := ""
    streams := w.streams ++ [List.replicate n true]
    current := some w.streams.length }

/-- A stream is an open device handle while any of its tracks is live. -/
def hasLive (ts : List Bool) : Bool := ts.any id

/-- Number of allocated streams that still hold a live track. -/
def liveHandleCount (w : CamWorld) : Nat :=
  (w.streams.filter hasLive).length

end Camera

/-! Helper lemmas shared across the claim theorems. -/

/-- The relay enqueues exactly the per-delta contents, in order. -/
theorem relayChunks_eq_map (ds : List (Option String)) :
    Relay.relayChunks ds = ds.map Relay.contentOf := by
  induction ds with
  | nil => rfl
  | cons d ds ih => simp [Relay.relayChunks, ih]

/-- Concatenating the relayed chunks recovers the concatenation of the
upstream delta contents. -/
theorem strConcat_relayChunks (ds : List (Option String)) :
    strConcat (Relay.relayChunks ds) = Relay.upstreamConcat ds := by
  induction ds with
  | nil => rfl
  | cons d ds ih =>
    cases d with
    | none =>
      show ("" : String) ++ strConcat (Relay.relayChunks ds) = Relay.upstreamConcat ds
      rw [ih]
      rfl
    | some s =>
      show s ++ strConcat (Relay.relayChunks ds) = s ++ Relay.upstreamConcat ds
      rw [ih]

/-- The incremental append loop produces the initial transcript followed by
the concatenation of the chunks. -/
theorem consumeChunks_eq (cs : List String) :
    ∀ a : String, Client.consumeChunks a cs = a ++ strConcat cs := by
  induction cs with
  | nil => intro a; simp [Client.consumeChunks, strConcat, String.append_empty]
  | cons c cs ih =>
    intro a
    simp [Client.consumeChunks, strConcat, ih, String.append_assoc]

/-- Appending the fixed retry suffix always yields a non-empty message. -/
theorem append_retry_ne_empty (m : String) :
    m ++ ". Please try again." ≠ "" := by
  intro he
  have hl := congrArg String.length he
  rw [String.length_append] at hl
  have h19 : (". Please try again." : String).length = 19 := rfl
  have h0 : ("" : String).length = 0 := rfl
  rw [h19, h0] at hl
  omega

/-! Claim theorems. -/

/-- C1 counterexample: when upstream emits zero deltas and then a clean
end-of-stream, the relay completes without error but its outbound stream is
the empty chunk sequence, so the outbound stream is not non-empty as the
claim states. -/
theorem relay_forwarding_nonempty_counterexample :
    (Relay.relayOut [] Relay.UpEnd.eos).1 = [] ∧
    (Relay.relayOut [] Relay.UpEnd.eos).2 = Relay.Terminal.completed :=
  ⟨rfl, rfl⟩

/-- C1 (amended): for every upstream run ending in a clean end-of-stream,
the relay completes cleanly, forwards exactly one outbound chunk per
upstream delta (each delta's coerced text, in arrival order, with no
accumulation), the concatenation of the outbound chunks equals the
concatenation of all upstream delta contents, and the outbound stream is
non-empty whenever upstream emitted at least one delta. -/
theorem relay_forwarding (deltas : List (Option String)) :
    (Relay.relayOut deltas Relay.UpEnd.eos).2 = Relay.Terminal.completed ∧
    (Relay.relayOut deltas Relay.UpEnd.eos).1 = deltas.map Relay.contentOf ∧
    ((Relay.relayOut deltas Relay.UpEnd.eos).1).length = deltas.length ∧
    strConcat (Relay.relayOut deltas Relay.UpEnd.eos).1
      = Relay.upstreamConcat deltas ∧
    (deltas ≠ [] → (Relay.relayOut deltas Relay.UpEnd.eos).1 ≠ []) := by
  refine ⟨rfl, relayChunks_eq_map deltas, ?_, strConcat_relayChunks deltas, ?_⟩
  · rw [show (Relay.relayOut deltas Relay.UpEnd.eos).1
        = Relay.relayChunks deltas from rfl, relayChunks_eq_map]
    simp
  · intro h
    cases deltas with
    | nil => exact absurd rfl h
    | cons d ds => simp [Relay.relayOut, Relay.relayChunks]

/-- C1 witness: the amended forwarding theorem instantiated on a concrete
three-delta run (one delta has no content and is coerced to the empty
chunk). -/
theorem relay_forwarding_witness :
    ([some "Hi", none, some " there"] : List (Option String)) ≠ [] ∧
    (Relay.relayOut [some "Hi", none, some " there"] Relay.UpEnd.eos).1 ≠ [] :=
  ⟨by decide,
   (relay_forwarding [some "Hi", none, some " there"]).2.2.2.2 (by decide)⟩

/-- C3: when upstream raises an error after yielding some deltas, the relay
terminates its outbound stream in the errored terminal state, which is
distinct from clean completion, and the chunk trace already emitted is
exactly the trace a clean run over the same deltas would have emitted (no
retraction). -/
theorem relay_midstream_error (deltas : List (Option String))
    (h : deltas ≠ []) :
    (Relay.relayOut deltas Relay.UpEnd.err).2 = Relay.Terminal.errored ∧
    Relay.Terminal.errored ≠ Relay.Terminal.completed ∧
    (Relay.relayOut deltas Relay.UpEnd.err).1
      = (Relay.relayOut deltas Relay.UpEnd.eos).1 :=
  ⟨rfl, by decide, rfl⟩

/-- C3 witness: the mid-stream-error theorem instantiated on a run that
yielded one delta before failing. -/
theorem relay_midstream_error_witness :
    ([some "Partial"] : List (Option String)) ≠ [] ∧
    (Relay.relayOut [some "Partial"] Relay.UpEnd.err).2
      = Relay.Terminal.errored :=
  ⟨by decide, (relay_midstream_error [some "Partial"] (by decide)).1⟩

/-- C5: with the credential configuration absent, POST returns the
structured configuration error with status 500 and issues zero upstream
calls, whatever the request body and upstream behaviour. -/
theorem relay_missing_credential (body : Option (Option String))
    (up : Relay.Upstream) :
    Relay.POST none body up
      = (Relay.RelayResponse.jsonError "OpenAI API key is not configured" 500,
         0) :=
  rfl

/-- C6 counterexample: a non-empty malformed image value (not a data URL)
is not rejected with a 400-class status: the relay issues one upstream call
and, when upstream rejects it, answers with status 500. -/
theorem relay_malformed_image_counterexample :
    Relay.isDataURL "not-a-data-url" = false ∧
    Relay.POST (some "sk-key") (some (some "not-a-data-url"))
        Relay.Upstream.reject
      = (Relay.RelayResponse.jsonError "Failed to analyze image" 500, 1) :=
  ⟨by decide, rfl⟩

/-- C6 (amended): for every request whose image field is missing or empty
(JavaScript-falsy), the relay returns the client-request-invalid error with
status 400 and issues zero upstream calls; malformed but non-empty image
values are not rejected. -/
theorem relay_falsy_image_rejected (k : String) (img : Option String)
    (up : Relay.Upstream) (hk : Relay.isFalsyStr (some k) = false)
    (hi : Relay.isFalsyStr img = true) :
    Relay.POST (some k) (some img) up
      = (Relay.RelayResponse.jsonError "No image data provided" 400, 0) := by
  simp [Relay.POST, hk, hi]

/-- C6 witness: the falsy-image rejection instantiated on a configured key
and an absent image field. -/
theorem relay_falsy_image_rejected_witness :
    Relay.isFalsyStr (some "sk-key") = false ∧
    Relay.isFalsyStr (none : Option String) = true ∧
    Relay.POST (some "sk-key") (some none) Relay.Upstream.reject
      = (Relay.RelayResponse.jsonError "No image data provided" 400, 0) :=
  ⟨by decide, by decide,
   relay_falsy_image_rejected "sk-key" none Relay.Upstream.reject
     (by decide) (by decide)⟩

/-- C2: when the response stream yields N>0 chunks and the read then fails,
the final transcript is exactly the concatenation of those N chunks (no
rollback, nothing appended after the failure), the error message is set from
the failure and is non-empty, the busy indicator is cleared, and exactly one
fetch was issued. -/
theorem client_partial_failure (s : Client.ClientState) (chunks : List String)
    (m : String) (h : chunks ≠ []) :
    Client.takePhoto s
        ⟨true, true, true, true, Client.FetchOutcome.okStream chunks (some m)⟩
      = ({ analysis := strConcat chunks, isLoading := false,
           error := m ++ ". Please try again." }, 1) ∧
    m ++ ". Please try again." ≠ "" := by
  refine ⟨?_, append_retry_ne_empty m⟩
  simp [Client.takePhoto, Client.catchErr, consumeChunks_eq]

/-- C2 witness: the partial-failure theorem instantiated on a prior
transcript, one successful chunk and a subsequent read error. -/
theorem client_partial_failure_witness :
    (["Partial"] : List String) ≠ [] ∧
    Client.takePhoto ⟨"old", false, "olderr"⟩
        ⟨true, true, true, true,
         Client.FetchOutcome.okStream ["Partial"] (some "network lost")⟩
      = ({ analysis := strConcat ["Partial"], isLoading := false,
           error := "network lost" ++ ". Please try again." }, 1) :=
  ⟨by decide,
   (client_partial_failure ⟨"old", false, "olderr"⟩ ["Partial"] "network lost"
     (by decide)).1⟩

/-- C4: from any prior transcript and error state, a submission whose
response streams "Hello" then " world" then a clean end leaves the
transcript exactly "Hello world", the busy indicator false and no error
(the prior transcript and error were cleared at submission start), with one
fetch issued. -/
theorem client_hello_world (s : Client.ClientState) :
    Client.takePhoto s
        ⟨true, true, true, true,
         Client.FetchOutcome.okStream ["Hello", " world"] none⟩
      = ({ analysis := "Hello world", isLoading := false, error := "" }, 1) := by
  simp [Client.takePhoto, Client.consumeChunks]

/-- C7: a capture attempt with the video, canvas and 2D context available
but the feed below the ready threshold sets the stream-not-ready error
message, clears the busy indicator, leaves the transcript untouched and
issues no fetch. -/
theorem client_feed_not_ready (s : Client.ClientState) (env : Client.Env)
    (hv : env.videoPresent = true) (hc : env.canvasPresent = true)
    (hx : env.contextPresent = true) (hr : env.ready = false) :
    Client.takePhoto s env
      = ({ s with error := "Video stream not ready. Please try again.",
                  isLoading := false }, 0) := by
  simp [Client.takePhoto, Client.catchErr, hv, hc, hx, hr]

/-- C7 witness: the not-ready theorem instantiated on a concrete state and
environment. -/
theorem client_feed_not_ready_witness :
    Client.takePhoto ⟨"keep", true, ""⟩
        ⟨true, true, true, false, Client.FetchOutcome.okNoBody⟩
      = ({ analysis := "keep", isLoading := false,
           error := "Video stream not ready. Please try again." }, 0) :=
  client_feed_not_ready ⟨"keep", true, ""⟩
    ⟨true, true, true, false, Client.FetchOutcome.okNoBody⟩ rfl rfl rfl rfl

/-- C10: when the video element, the canvas element or the 2D context is
unavailable, takePhoto returns with the state unchanged and no fetch
issued. -/
theorem takePhoto_missing_refs_noop (s : Client.ClientState)
    (env : Client.Env)
    (h : env.videoPresent = false ∨ env.canvasPresent = false ∨
         env.contextPresent = false) :
    Client.takePhoto s env = (s, 0) := by
  rcases h with h | h | h
  · simp [Client.takePhoto, h]
  · simp [Client.takePhoto, h]
  · cases hv : env.videoPresent <;> cases hc : env.canvasPresent <;>
      simp [Client.takePhoto, h, hv, hc]

/-- C10 witness: the no-op theorem instantiated with a missing video
element. -/
theorem takePhoto_missing_refs_noop_witness :
    Client.takePhoto ⟨"a", true, "e"⟩
        ⟨false, true, true, true, Client.FetchOutcome.okNoBody⟩
      = (⟨"a", true, "e"⟩, 0) :=
  takePhoto_missing_refs_noop ⟨"a", true, "e"⟩
    ⟨false, true, true, true, Client.FetchOutcome.okNoBody⟩ (Or.inl rfl)

/-- C8: the claim says starting a new camera session releases the prior
session's tracks first, but startCamera never stops them: from a world with
one active live-track stream, a successful start leaves the prior stream's
track live, so two open device handles exist concurrently. -/
theorem startCamera_leaks_prior_handle :
    Camera.liveHandleCount ⟨[[true]], some 0, true, some 0, ""⟩ = 1 ∧
    Camera.liveHandleCount
        (Camera.startCameraSuccess ⟨[[true]], some 0, true, some 0, ""⟩ 1) = 2 ∧
    Camera.hasLive
        (((Camera.startCameraSuccess
            ⟨[[true]], some 0, true, some 0, ""⟩ 1).streams).getD 0 [])
      = true := by
  decide

/-- C9: stopping the camera is idempotent (a second stop changes nothing)
and a stop with no active feed is a no-op; the operation is a total
function, so it never throws. -/
theorem stopCamera_idempotent (w : Camera.CamWorld) :
    Camera.stopCamera (Camera.stopCamera w) = Camera.stopCamera w ∧
    (w.current = none → Camera.stopCamera w = w) := by
  cases h : w.current with
  | none =>
    constructor
    · simp [Camera.stopCamera, h]
    · intro _; simp [Camera.stopCamera, h]
  | some i =>
    constructor
    · simp [Camera.stopCamera, h]
    · intro hn; exact absurd hn (by simp)

/-- C9 witness: the idempotence theorem instantiated on a world with no
active feed. -/
theorem stopCamera_idempotent_witness :
    Camera.stopCamera (Camera.stopCamera ⟨[], none, true, none, ""⟩)
      = Camera.stopCamera ⟨[], none, true, none, ""⟩ ∧
    Camera.stopCamera ⟨[], none, true, none, ""⟩ = ⟨[], none, true, none, ""⟩ :=
  ⟨(stopCamera_idempotent ⟨[], none, true, none, ""⟩).1,
   (stopCamera_idempotent ⟨[], none, true, none, ""⟩).2 rfl⟩
